import Mathlib

/-!
# PC-Lab-Booking: verification of the booking conflict/availability engine

Shallow embedding of the core logic of the PC-Lab-Booking repository
(`bookings/models.py`, `bookings/views.py`, `bookings/services.py`).

Modelling conventions:
* Timestamps are minutes since an arbitrary epoch, as natural numbers
  (`1440` minutes per day, `60` per hour).  `date()` of a timestamp is
  floor division by `1440`, `time()` is the remainder.
* Django querysets over the `Booking` table are modelled as `List Booking`
  with explicit `filter` / `any` predicates transcribed from the ORM calls.
* `Model.save()` runs `full_clean()` (which calls `clean()`) exactly when
  no `update_fields` argument is passed, as in `Booking.save` in
  `bookings/models.py`; a `ValidationError` is an `Except.error`.
* `transaction.atomic` blocks are modelled as all-or-nothing: if a step
  inside the block fails, the whole operation returns the failure and no
  record is changed.
* The Python field `end` is called `stop` here (`end` is a Lean keyword);
  all other field and function names follow the source.
-/

namespace PCLab

/-- Minutes per day. -/
def minutesPerDay : Nat := 1440

/-- `datetime.date()` of a minute timestamp: the day number. -/
def dateOf (t : Nat) : Nat := t / minutesPerDay

/-- `datetime.time()` of a minute timestamp: minutes since midnight. -/
def timeOf (t : Nat) : Nat := t % minutesPerDay

/-- `BOOKING_STATUS` choices in `bookings/models.py`. -/
inductive Status where
  | pending
  | approved
  | rejected
  | cancelled
  | completed
deriving DecidableEq, Repr

/-- `RECURRENCE_FREQUENCY` choices in `bookings/models.py` (`none` is the
"No Recurrence" choice). -/
inductive Frequency where
  | none
  | daily
  | weekly
  | biweekly
  | monthly
deriving DecidableEq, Repr

/-- The `Booking` model of `bookings/models.py`.  `id` is `none` for an
unsaved row (Django `pk is None`); `stop` is the source column `end`. -/
structure Booking where
  id : Option Nat
  requester : Nat
  lab : Option Nat
  start : Nat
  stop : Nat
  status : Status
  purpose : String
  approval_required : Bool
  approved_by : Option Nat
  admin_notes : Option String
  is_recurring : Bool
  recurrence_frequency : Frequency
  recurrence_end_date : Option Nat
  parent_booking : Option Nat
  is_policy_exception : Bool
  exception_reason : Option String
  exception_approved_by : Option Nat
deriving DecidableEq, Repr

/-- The `Policy` model of `bookings/models.py`. -/
structure Policy where
  name : String
  approval_required_for_students : Bool
  max_hours : Nat
  advance_notice_days : Nat
  max_advance_booking_days : Nat
  allow_recurring : Bool
  is_active : Bool
  work_start_hour : Nat
  work_end_hour : Nat
deriving DecidableEq, Repr

/-- `Policy.objects.filter(is_active=True).first()`: the active-policy
lookup used throughout `bookings/models.py`. -/
def activePolicy (policies : List Policy) : Option Policy :=
  (policies.filter (fun p => p.is_active)).head?

/-- `Booking.has_conflict` (`bookings/models.py` lines 162-171):
excludes the booking's own pk and the statuses `cancelled`/`rejected`,
then filters same lab, `start < self.end`, `end > self.start`.
Django's `exclude(pk=None)` excludes nothing, hence the match on `id`. -/
def Booking.has_conflict (b : Booking) (existing : List Booking) : Bool :=
  existing.any fun o =>
    (match b.id with
     | some i => decide (o.id ≠ some i)
     | none => true)
    && decide (o.status ≠ .cancelled) && decide (o.status ≠ .rejected)
    && decide (o.lab = b.lab)
    && decide (o.start < b.stop)
    && decide (o.stop > b.start)

/-- `has_booking_conflict` (`bookings/views.py` lines 220-236): conflicts
against `approved`/`pending` bookings only, optionally excluding the
booking's own pk when it has one. -/
def has_booking_conflict (existing : List Booking) (booking : Booking)
    (exclude_self : Bool) : Bool :=
  existing.any fun o =>
    decide (o.lab = booking.lab)
    && decide (o.start < booking.stop)
    && decide (o.stop > booking.start)
    && (decide (o.status = .approved) || decide (o.status = .pending))
    && (if exclude_self && booking.id.isSome then decide (o.id ≠ booking.id) else true)

/-- `Booking.duration_minutes` property. -/
def Booking.duration_minutes (b : Booking) : Nat := b.stop - b.start

/-- `Booking.duration_hours` is `round(delta.total_seconds() / 3600, 2)`;
scaled by 100 it is the integer `round(minutes * 100 / 60)` (at integer
minutes the value is never exactly halfway, so Python's banker rounding
agrees with round-half-up). -/
def Booking.duration_hours_centi (b : Booking) : ℤ :=
  round ((b.duration_minutes : ℚ) * 100 / 60)

/-- `Booking._validate_time_restrictions` (`bookings/models.py`): working
hours, advance notice and booking horizon, each skipped when the
`is_policy_exception` flag is set; all skipped when there is no policy. -/
def Booking.validate_time_restrictions (b : Booking) (policy : Option Policy)
    (now : Nat) : Option String :=
  match policy with
  | Option.none => Option.none
  | some p =>
    let work_start := p.work_start_hour * 60
    let work_end := p.work_end_hour * 60
    if (timeOf b.start < work_start ∨ timeOf b.stop > work_end) ∧ ¬b.is_policy_exception then
      some "Bookings must be between work hours."
    else
      let min_date := now + p.advance_notice_days * minutesPerDay
      let max_date := now + p.max_advance_booking_days * minutesPerDay
      if b.start < min_date ∧ ¬b.is_policy_exception then
        some "Bookings must be made in advance."
      else if dateOf b.start > dateOf max_date ∧ ¬b.is_policy_exception then
        some "You cannot book that far ahead."
      else Option.none

/-- `Booking._validate_against_policy` (`bookings/models.py` lines
146-160): duration cap, skipped for policy exceptions and when no policy
is active. -/
def Booking.validate_against_policy (b : Booking) (policy : Option Policy) :
    Option String :=
  match policy with
  | Option.none => Option.none
  | some p =>
    if b.duration_hours_centi > (p.max_hours : ℤ) * 100 ∧ ¬b.is_policy_exception then
      some "Booking duration exceeds the maximum allowed."
    else Option.none

/-- The database / request context a `full_clean` call reads: the other
persisted bookings, the active policy, and the current time. -/
structure CleanCtx where
  existing : List Booking
  policy : Option Policy
  now : Nat
deriving Repr

/-- `Booking.clean` (`bookings/models.py` lines 86-105): lab required,
`end > start`, no past start, time restrictions, conflict check, policy
duration check, in that order. -/
def Booking.clean (b : Booking) (ctx : CleanCtx) : Option String :=
  if b.lab = Option.none then some "A lab must be selected."
  else if b.stop ≤ b.start then some "Booking end time must be after the start time."
  else if b.start < ctx.now then some "You cannot create a booking in the past."
  else match b.validate_time_restrictions ctx.policy ctx.now with
  | some e => some e
  | Option.none =>
    if b.has_conflict ctx.existing then
      some "This booking conflicts with an existing booking."
    else b.validate_against_policy ctx.policy

/-- `Booking.save` (`bookings/models.py` lines 173-176): runs
`full_clean` exactly when `update_fields` is not passed. -/
def Booking.save (b : Booking) (update_fields : Option (List String))
    (ctx : CleanCtx) : Except String Booking :=
  match update_fields with
  | some _ => .ok b
  | Option.none =>
    match b.clean ctx with
    | some e => .error e
    | Option.none => .ok b

/-- A request user: pk, superuser flag and role string. -/
structure Actor where
  id : Nat
  is_superuser : Bool
  role : String
deriving DecidableEq, Repr

/-- `user_is_admin_role` (`bookings/views.py` lines 193-202). -/
def user_is_admin_role (u : Actor) : Bool :=
  u.is_superuser ||
    ["program_admin", "lab_technician", "it_support", "it_admin", "manager", "lecturer"].contains u.role

/-- `user_can_approve` (`bookings/views.py` lines 205-214). -/
def user_can_approve (u : Actor) : Bool :=
  u.is_superuser || ["program_admin", "manager", "lecturer"].contains u.role

/-- `booking_status_action` (`bookings/views.py` lines 1453-1584): the
generic approve / reject / cancel / complete endpoint.  Each successful
branch saves with `update_fields`, so `full_clean` never runs. -/
def booking_status_action (user : Actor) (b : Booking) (action : String)
    (admin_notes : String) (ctx : CleanCtx) : Except String Booking :=
  if action = "approve" then
    if ¬user_can_approve user then .error "permission denied"
    else if b.status ≠ .pending then .error "only pending bookings can be approved"
    else
      Booking.save
        { b with status := .approved, approved_by := some user.id,
                 admin_notes := if admin_notes ≠ "" then some admin_notes else b.admin_notes }
        (some ["status", "approved_by", "admin_notes"]) ctx
  else if action = "reject" then
    if ¬user_can_approve user then .error "permission denied"
    else if b.status ≠ .pending then .error "only pending bookings can be rejected"
    else if admin_notes = "" then .error "admin_notes required for rejection"
    else
      Booking.save
        { b with status := .rejected, approved_by := some user.id,
                 admin_notes := some admin_notes }
        (some ["status", "approved_by", "admin_notes"]) ctx
  else if action = "cancel" then
    if ¬(user.id = b.requester ∨ user_is_admin_role user = true) then .error "permission denied"
    else if b.status = .cancelled ∨ b.status = .completed then .error "cannot cancel booking with this status"
    else
      Booking.save { b with status := .cancelled } (some ["status"]) ctx
  else if action = "complete" then
    if ¬user_can_approve user then .error "permission denied"
    else if b.status ≠ .approved then .error "only approved bookings can be marked completed"
    else
      Booking.save
        { b with status := .completed,
                 admin_notes := if admin_notes ≠ "" then some admin_notes else b.admin_notes }
        (some ["status", "admin_notes"]) ctx
  else .error "invalid action"

/-- `BookingDetailView.post` (`bookings/views.py` lines 389-541): the same
four transitions driven from the detail page; the cancel permission also
names `is_superuser` explicitly, and an empty action is an error. -/
def bookingDetailView_post (user : Actor) (b : Booking) (action : String)
    (admin_notes : String) (ctx : CleanCtx) : Except String Booking :=
  if action = "" then .error "No action specified"
  else if action = "cancel" then
    if ¬(user.id = b.requester ∨ user.is_superuser = true ∨ user_is_admin_role user = true) then
      .error "You do not have permission to cancel this booking"
    else if b.status = .cancelled ∨ b.status = .completed then .error "Cannot cancel booking with this status"
    else
      Booking.save { b with status := .cancelled } (some ["status"]) ctx
  else if action = "approve" then
    if ¬user_can_approve user then .error "Permission denied"
    else if b.status ≠ .pending then .error "Only pending bookings can be approved"
    else
      Booking.save
        { b with status := .approved, approved_by := some user.id,
                 admin_notes := if admin_notes ≠ "" then some admin_notes else b.admin_notes }
        (some ["status", "approved_by", "admin_notes"]) ctx
  else if action = "reject" then
    if ¬user_can_approve user then .error "Permission denied"
    else if b.status ≠ .pending then .error "Only pending bookings can be rejected"
    else if admin_notes = "" then .error "Reason for rejection is required"
    else
      Booking.save
        { b with status := .rejected, approved_by := some user.id,
                 admin_notes := some admin_notes }
        (some ["status", "approved_by", "admin_notes"]) ctx
  else if action = "complete" then
    if ¬user_can_approve user then .error "Permission denied"
    else if b.status ≠ .approved then .error "Only approved bookings can be marked completed"
    else
      Booking.save
        { b with status := .completed,
                 admin_notes := if admin_notes ≠ "" then some admin_notes else b.admin_notes }
        (some ["status", "admin_notes"]) ctx
  else .error "Invalid action"

/-- Store-level view of `booking_status_action`: `get_object_or_404` by
pk, then the transition, then the row is replaced in the table. -/
def booking_status_action_store (user : Actor) (store : List Booking)
    (booking_id : Nat) (action : String) (admin_notes : String)
    (ctx : CleanCtx) : Except String (List Booking) :=
  match store.find? (fun b => b.id = some booking_id) with
  | Option.none => .error "404"
  | some b =>
    match booking_status_action user b action admin_notes ctx with
    | .error e => .error e
    | .ok b' => .ok (store.map fun c => if c.id = some booking_id then b' else c)

/-- Frequency-to-step table of
`RecurringBookingService.create_recurring_bookings`
(`bookings/services.py` lines 30-39); `none` means the final `else`
branch that returns `[]`. -/
def recurrence_delta (frequency : Frequency) : Option Nat :=
  match frequency with
  | .daily => some minutesPerDay
  | .weekly => some (7 * minutesPerDay)
  | .biweekly => some (14 * minutesPerDay)
  | .monthly => some (30 * minutesPerDay)
  | .none => Option.none

/-- The per-occurrence conflict query of `create_recurring_bookings`
(`bookings/services.py` lines 51-55): same lab, overlapping interval,
status not `cancelled`/`rejected`. -/
def recurrence_conflicts (lab : Option Nat) (current_start current_end : Nat)
    (existing : List Booking) : Bool :=
  existing.any fun o =>
    decide (o.lab = lab)
    && decide (o.start < current_end)
    && decide (o.stop > current_start)
    && decide (o.status ≠ .cancelled) && decide (o.status ≠ .rejected)

/-- The child row built by `Booking.objects.create(...)` in
`create_recurring_bookings` (`bookings/services.py` lines 60-71);
unlisted columns take their model defaults. -/
def mkRecurringChild (parent : Booking) (frequency : Frequency)
    (next_id current_start current_end : Nat) : Booking :=
  { id := some next_id
    requester := parent.requester
    lab := parent.lab
    start := current_start
    stop := current_end
    status := if parent.status = .approved then .approved else .pending
    purpose := parent.purpose
    approval_required := false
    approved_by := Option.none
    admin_notes := some "Part of recurring series"
    is_recurring := true
    recurrence_frequency := frequency
    recurrence_end_date := Option.none
    parent_booking := parent.id
    is_policy_exception := false
    exception_reason := Option.none
    exception_approved_by := Option.none }

/-- The `while` loop of `create_recurring_bookings`
(`bookings/services.py` lines 49-82).  The source guard is
`current_start.date() <= end_date and instance_count < max_instances`
with `max_instances = 52`; `remaining` is `52 - instance_count`, so the
loop is structural.  `Booking.objects.create` runs `full_clean`
(see `Booking.save`), and a `ValidationError` there is caught and the
occurrence skipped; either way the loop advances by one step. -/
def create_recurring_loop (parent : Booking) (frequency : Frequency)
    (delta end_date : Nat) (policy : Option Policy) (now : Nat) :
    Nat → List Booking → Nat → Nat → Nat → List Booking
  | 0, _, _, _, _ => []
  | remaining + 1, existing, current_start, current_end, next_id =>
    if dateOf current_start ≤ end_date then
      if recurrence_conflicts parent.lab current_start current_end existing then
        create_recurring_loop parent frequency delta end_date policy now
          remaining existing (current_start + delta) (current_end + delta) next_id
      else
        let child := mkRecurringChild parent frequency next_id current_start current_end
        match child.clean ⟨existing, policy, now⟩ with
        | some _ =>
          create_recurring_loop parent frequency delta end_date policy now
            remaining existing (current_start + delta) (current_end + delta) next_id
        | Option.none =>
          child :: create_recurring_loop parent frequency delta end_date policy now
            remaining (existing ++ [child]) (current_start + delta) (current_end + delta)
            (next_id + 1)
    else []

/-- `RecurringBookingService.create_recurring_bookings`
(`bookings/services.py` lines 14-84). -/
def create_recurring_bookings (parent : Booking) (frequency : Frequency)
    (end_date : Nat) (policy : Option Policy) (now : Nat)
    (existing : List Booking) (next_id : Nat) : List Booking :=
  match recurrence_delta frequency with
  | Option.none => []
  | some delta =>
    create_recurring_loop parent frequency delta end_date policy now
      52 existing (parent.start + delta) (parent.stop + delta) next_id

/-- Reference expansion for the amended C5 claim, written from the
claim's words rather than the loop: occurrence `k` (for `k = 1, 2, ...`)
has the interval `parent.start + k * delta .. parent.stop + k * delta`;
a conflicting occurrence is skipped, the index still advances by one
step, a conflict-free occurrence is materialized (and joins the booking
set seen by later occurrences), and at most 52 iterations run. -/
def expansion_spec_go (parent : Booking) (frequency : Frequency)
    (delta end_date : Nat) : Nat → List Booking → Nat → Nat → List Booking
  | 0, _, _, _ => []
  | remaining + 1, existing, k, nid =>
    if dateOf (parent.start + k * delta) ≤ end_date then
      if recurrence_conflicts parent.lab (parent.start + k * delta)
          (parent.stop + k * delta) existing then
        expansion_spec_go parent frequency delta end_date remaining existing (k + 1) nid
      else
        mkRecurringChild parent frequency nid (parent.start + k * delta)
            (parent.stop + k * delta) ::
          expansion_spec_go parent frequency delta end_date remaining
            (existing ++ [mkRecurringChild parent frequency nid (parent.start + k * delta)
              (parent.stop + k * delta)]) (k + 1) (nid + 1)
    else []

/-- Reference expansion, top level: step table as in the source, then
occurrences `k = 1, 2, ...` capped at 52. -/
def expansion_spec (parent : Booking) (frequency : Frequency) (end_date : Nat)
    (existing : List Booking) (next_id : Nat) : List Booking :=
  match recurrence_delta frequency with
  | Option.none => []
  | some delta => expansion_spec_go parent frequency delta end_date 52 existing 1 next_id

/-- `RecurringBookingService.cancel_recurring_series`
(`bookings/services.py` lines 86-97): queryset
`filter(parent_booking=parent, start__gte=now).exclude(status='cancelled')
.update(status='cancelled')` applied to the whole table. -/
def cancel_recurring_series (parent : Booking) (now : Nat)
    (store : List Booking) : List Booking :=
  store.map fun b =>
    if b.parent_booking = parent.id ∧ b.start ≥ now ∧ b.status ≠ .cancelled then
      { b with status := .cancelled }
    else b

/-- Module constants of `bookings/views.py` (lines 284-287). -/
def SLOT_MINUTES : Nat := 30

/-- Working-hours window start used by the availability views. -/
def WORK_START_HOUR : Nat := 8

/-- Working-hours window end used by the availability views. -/
def WORK_END_HOUR : Nat := 20

/-- The slot-building `while` loop of `availability_for_date`
(`bookings/views.py` lines 1424-1429): `while cur + step <= end_of_day`,
emitting `(cur, cur + step)`.  `fuel` is an upper bound on the number of
iterations (the caller passes `end_of_day - cur + 1`, which with
`step ≥ 1` is never exhausted before the guard fails). -/
def buildSlots : Nat → Nat → Nat → Nat → List (Nat × Nat)
  | 0, _, _, _ => []
  | fuel + 1, cur, end_of_day, step =>
    if cur + step ≤ end_of_day then
      (cur, cur + step) :: buildSlots fuel (cur + step) end_of_day step
    else []

/-- `availability_for_date` (`bookings/views.py` lines 1383-1447), the
slot computation after input parsing: fixed 08:00-20:00 window on the
requested day, active = `approved`/`pending` bookings of the lab
overlapping the window, 30-minute slots, a window of
`max 1 (duration / 30)` consecutive free slots per available entry.
The function takes `policy` and `now` because the specification says the
availability query consults them; the source body never reads either. -/
def availability_for_date (existing : List Booking) (lab : Nat)
    (date_obj duration : Nat) (policy : Option Policy) (now : Nat) :
    List (Nat × Nat) :=
  let start_of_day := date_obj * minutesPerDay + WORK_START_HOUR * 60
  let end_of_day := date_obj * minutesPerDay + WORK_END_HOUR * 60
  let booked := existing.filter fun b =>
    decide (b.lab = some lab)
    && decide (b.start < end_of_day)
    && decide (b.stop > start_of_day)
    && (decide (b.status = .approved) || decide (b.status = .pending))
  let slots := buildSlots (end_of_day - start_of_day + 1) start_of_day end_of_day SLOT_MINUTES
  let free : List Bool := slots.map fun s =>
    !(booked.any fun b => decide (b.start < s.2) && decide (b.stop > s.1))
  let slots_needed := max 1 (duration / SLOT_MINUTES)
  (List.range (slots.length + 1 - slots_needed)).filterMap fun i =>
    if (List.range slots_needed).all (fun j => free.getD (i + j) false) then
      some ((slots.getD i (0, 0)).1, (slots.getD (i + slots_needed - 1) (0, 0)).2)
    else Option.none

/-- Status choices of the `PolicyException` model. -/
inductive ExcStatus where
  | pending
  | approved
  | rejected
deriving DecidableEq, Repr

/-- The `PolicyException` model of `bookings/models.py`. -/
structure PolicyExceptionRec where
  id : Nat
  booking : Nat
  requested_by : Nat
  reason : String
  status : ExcStatus
  reviewed_by : Option Nat
  reviewed_at : Option Nat
  review_notes : Option String
deriving DecidableEq, Repr

/-- `PolicyExceptionApprovalView.post` (`bookings/views.py` lines
1912-1955).  Inside `transaction.atomic` the exception row is updated,
then the linked booking is updated and saved without `update_fields`
(so `full_clean` runs and may raise); any failure rolls the whole block
back, which the model expresses by returning the error with both records
unchanged. -/
def policy_exception_post (user : Actor) (exc : PolicyExceptionRec)
    (booking : Booking) (action : String) (review_notes : String)
    (ctx : CleanCtx) (now : Nat) : Except String (PolicyExceptionRec × Booking) :=
  if action ≠ "approve" ∧ action ≠ "reject" then .error "Invalid action."
  else
    let exc' : PolicyExceptionRec :=
      { exc with status := if action = "approve" then .approved else .rejected,
                 reviewed_by := some user.id, reviewed_at := some now,
                 review_notes := some review_notes }
    let booking' : Booking :=
      if action = "approve" then
        { booking with is_policy_exception := false, status := .approved,
                       approved_by := some user.id }
      else
        { booking with is_policy_exception := false, exception_reason := Option.none,
                       status := .rejected }
    match booking'.save Option.none ctx with
    | .error e => .error e
    | .ok b' => .ok (exc', b')

/-- Whether an endpoint call succeeded (a non-error HTTP response). -/
def exceptOk {ε α : Type} : Except ε α → Bool
  | .ok _ => true
  | .error _ => false

deriving instance DecidableEq for Except

/-! ## Concrete fixtures for witnesses and counterexamples -/

/-- A base booking row: lab 1, 10:00-11:00 on day 0, pending. -/
def B0 : Booking :=
  { id := Option.none
    requester := 1
    lab := some 1
    start := 600
    stop := 660
    status := .pending
    purpose := ""
    approval_required := false
    approved_by := Option.none
    admin_notes := Option.none
    is_recurring := false
    recurrence_frequency := .none
    recurrence_end_date := Option.none
    parent_booking := Option.none
    is_policy_exception := false
    exception_reason := Option.none
    exception_approved_by := Option.none }

/-- A base policy: max 4 hours, 1 day notice, 30 days horizon, 8-20. -/
def P0 : Policy :=
  { name := "default"
    approval_required_for_students := false
    max_hours := 4
    advance_notice_days := 1
    max_advance_booking_days := 30
    allow_recurring := true
    is_active := true
    work_start_hour := 8
    work_end_hour := 20 }

/-- A superuser actor. -/
def A0 : Actor := { id := 9, is_superuser := true, role := "" }

/-- A context with no other bookings, no active policy, at time 0. -/
def CTX0 : CleanCtx := { existing := [], policy := Option.none, now := 0 }

/-- An approved weekly recurring parent booking on day 10, 09:00-10:00
(minute 14940 to 15000). -/
def PR0 : Booking :=
  { B0 with id := some 1, start := 14940, stop := 15000, status := .approved,
            is_recurring := true, recurrence_frequency := .weekly }

/-- A pending policy-exception request for booking 1. -/
def PE0 : PolicyExceptionRec :=
  { id := 1
    booking := 1
    requested_by := 1
    reason := "needs longer slot"
    status := .pending
    reviewed_by := Option.none
    reviewed_at := Option.none
    review_notes := Option.none }

/-! ## Helper lemmas -/

/-- The body of the `has_booking_conflict` queryset, element by element,
as a proposition. -/
lemma hbc_elem_iff (b o : Booking) (ex : Bool) :
    ((decide (o.lab = b.lab)
      && decide (o.start < b.stop)
      && decide (o.stop > b.start)
      && (decide (o.status = .approved) || decide (o.status = .pending))
      && (if ex && b.id.isSome then decide (o.id ≠ b.id) else true)) = true) ↔
    (o.lab = b.lab ∧ (o.status = .pending ∨ o.status = .approved) ∧
      (∀ i, (if ex then b.id else Option.none) = some i → o.id ≠ some i) ∧
      b.start < o.stop ∧ o.start < b.stop) := by
  cases ex <;> cases hb : b.id <;> simp [hb] <;> tauto

/-- The body of the `Booking.has_conflict` queryset, element by element,
as a proposition. -/
lemma hc_elem_iff (b o : Booking) :
    (((match b.id with
       | some i => decide (o.id ≠ some i)
       | Option.none => true)
      && decide (o.status ≠ .cancelled) && decide (o.status ≠ .rejected)
      && decide (o.lab = b.lab)
      && decide (o.start < b.stop)
      && decide (o.stop > b.start)) = true) ↔
    (o.lab = b.lab ∧ o.status ≠ .cancelled ∧ o.status ≠ .rejected ∧
      (∀ i, b.id = some i → o.id ≠ some i) ∧
      b.start < o.stop ∧ o.start < b.stop) := by
  cases hb : b.id <;> simp [hb] <;> tauto

/-! ## C1 -/

/-- C1: for every proposed half-open interval with `start < end` and
every optional excluded booking id, both conflict checks
(`has_booking_conflict` in views and `Booking.has_conflict` in the
model) return true iff some existing booking on the same lab, different
from the excluded id and in that check's active status set, satisfies
`start < B.end ∧ B.start < end`; in particular a booking touching the
proposed interval at the boundary (`B.end = start`) is never a
conflict. -/
theorem C1_conflict_check_characterization :
    ∀ (b : Booking) (existing : List Booking) (exclude_self : Bool),
      b.start < b.stop →
      ((has_booking_conflict existing b exclude_self = true ↔
        ∃ o ∈ existing, o.lab = b.lab ∧ (o.status = .pending ∨ o.status = .approved) ∧
          (∀ i, (if exclude_self then b.id else Option.none) = some i → o.id ≠ some i) ∧
          b.start < o.stop ∧ o.start < b.stop)
      ∧ (b.has_conflict existing = true ↔
        ∃ o ∈ existing, o.lab = b.lab ∧ o.status ≠ .cancelled ∧ o.status ≠ .rejected ∧
          (∀ i, b.id = some i → o.id ≠ some i) ∧
          b.start < o.stop ∧ o.start < b.stop)
      ∧ (∀ o : Booking, o.stop = b.start →
          has_booking_conflict [o] b exclude_self = false ∧ b.has_conflict [o] = false)) := by
  intro b existing exclude_self _
  refine ⟨?_, ?_, ?_⟩
  · simp only [has_booking_conflict, List.any_eq_true, hbc_elem_iff]
  · simp only [Booking.has_conflict, List.any_eq_true, hc_elem_iff]
  · intro o htouch
    constructor
    · simp [has_booking_conflict, htouch]
    · simp [Booking.has_conflict, htouch]

/-- C1 witness: the characterization applied to a concrete probe
(lab 1, 10:30-11:30) against one approved booking 10:00-11:00, where it
reports a conflict. -/
theorem C1_conflict_check_characterization_witness :
    has_booking_conflict [{ B0 with id := some 1, status := .approved }]
      { B0 with start := 630, stop := 690 } true = true :=
  ((C1_conflict_check_characterization { B0 with start := 630, stop := 690 }
      [{ B0 with id := some 1, status := .approved }] true (by decide)).1).mpr
    ⟨{ B0 with id := some 1, status := .approved }, by simp, by decide, by decide,
      by decide, by decide, by decide⟩

/-! ## C2 -/

/-- C2 counterexample: a completed booking 10:00-11:00 on lab 1 blocks
the model-level conflict check for 10:30-11:30 (and the series), even
though the claim says no conflict-detection path counts a completed
booking as blocking; the views-level helper disagrees and ignores it. -/
theorem C2_completed_blocks_model_check :
    Booking.has_conflict { B0 with start := 630, stop := 690 }
      [{ B0 with id := some 1, status := .completed }] = true ∧
    has_booking_conflict [{ B0 with id := some 1, status := .completed }]
      { B0 with start := 630, stop := 690 } true = false := by
  decide

/-- C2 amended: cancelled and rejected bookings are excluded from every
conflict-detection path (model check, views check, recurrence check,
availability), so a booking created then cancelled never blocks; but the
paths do not share one active set: a completed booking blocks
`Booking.has_conflict` (used by creation-time `full_clean` and, via the
same status filter, recurrence expansion) while `has_booking_conflict`
(used by the view-level creation/edit checks and availability) ignores
it. -/
theorem C2_active_status_sets :
    ∀ (b o : Booking),
      ((o.status = .cancelled ∨ o.status = .rejected) →
        b.has_conflict [o] = false ∧
        (∀ ex, has_booking_conflict [o] b ex = false) ∧
        (∀ cs ce, recurrence_conflicts b.lab cs ce [o] = false) ∧
        (∀ lab d dur p now rest,
          availability_for_date (o :: rest) lab d dur p now =
          availability_for_date rest lab d dur p now))
      ∧ (o.status = .completed → o.lab = b.lab → b.start < o.stop → o.start < b.stop →
          (∀ i, b.id = some i → o.id ≠ some i) →
          b.has_conflict [o] = true ∧ has_booking_conflict [o] b true = false ∧
          recurrence_conflicts b.lab b.start b.stop [o] = true ∧
          (∀ lab d dur p now rest,
            availability_for_date (o :: rest) lab d dur p now =
            availability_for_date rest lab d dur p now)) := by
  intro b o
  constructor
  · intro hst
    refine ⟨?_, ?_, ?_, ?_⟩
    · rcases hst with h | h <;> simp [Booking.has_conflict, h]
    · intro ex
      rcases hst with h | h <;> simp [has_booking_conflict, h]
    · intro cs ce
      rcases hst with h | h <;> simp [recurrence_conflicts, h]
    · intro lab d dur p now rest
      have hpred : ∀ s e : Nat,
          (decide (o.lab = some lab) && decide (o.start < e)
            && decide (o.stop > s)
            && (decide (o.status = .approved) || decide (o.status = .pending))) = false := by
        intro s e
        rcases hst with h | h <;> simp [h]
      simp only [availability_for_date, List.filter_cons, hpred]
      simp
  · intro hst hlab hs he hexcl
    refine ⟨?_, ?_, ?_, ?_⟩
    · simp only [Booking.has_conflict, List.any_eq_true, hc_elem_iff]
      exact ⟨o, by simp, hlab, by simp [hst], by simp [hst], hexcl, hs, he⟩
    · simp [has_booking_conflict, hst]
    · simp [recurrence_conflicts, hst, hlab, hs, he]
    · intro lab d dur p now rest
      have hpred : ∀ s e : Nat,
          (decide (o.lab = some lab) && decide (o.start < e)
            && decide (o.stop > s)
            && (decide (o.status = .approved) || decide (o.status = .pending))) = false := by
        intro s e
        simp [hst]
      simp only [availability_for_date, List.filter_cons, hpred]
      simp

/-- C2 amended witness: a cancelled 10:00-11:00 booking does not block
10:30-11:30, while the same booking completed blocks the model-level
check and the recurrence query but not the views-level check, and is
invisible to availability. -/
theorem C2_active_status_sets_witness :
    (Booking.has_conflict { B0 with start := 630, stop := 690 }
        [{ B0 with id := some 1, status := .cancelled }] = false) ∧
    (Booking.has_conflict { B0 with start := 630, stop := 690 }
        [{ B0 with id := some 1, status := .completed }] = true) ∧
    (has_booking_conflict [{ B0 with id := some 1, status := .completed }]
        { B0 with start := 630, stop := 690 } true = false) ∧
    (recurrence_conflicts ({ B0 with start := 630, stop := 690 } : Booking).lab 630 690
        [{ B0 with id := some 1, status := .completed }] = true) ∧
    (availability_for_date [{ B0 with id := some 1, status := .completed }] 1 0 30
        Option.none 0
      = availability_for_date [] 1 0 30 Option.none 0) := by
  have h2 := (C2_active_status_sets { B0 with start := 630, stop := 690 }
      { B0 with id := some 1, status := .completed }).2 rfl rfl (by decide) (by decide)
      (by decide)
  exact ⟨((C2_active_status_sets { B0 with start := 630, stop := 690 }
      { B0 with id := some 1, status := .cancelled }).1 (Or.inl rfl)).1,
    h2.1, h2.2.1, h2.2.2.1, h2.2.2.2 1 0 30 Option.none 0 []⟩

/-! ## C3 -/

/-- C3 counterexample: cancelling a rejected booking succeeds (the code
blocks cancel only for `cancelled`/`completed`), although the claim says
every (status, action) pair outside its table is an invalid transition
and `rejected` is terminal.  Both endpoints behave alike. -/
theorem C3_cancel_from_rejected_succeeds :
    booking_status_action A0 { B0 with id := some 1, status := .rejected } "cancel" "" CTX0
      = .ok { B0 with id := some 1, status := .cancelled } ∧
    bookingDetailView_post A0 { B0 with id := some 1, status := .rejected } "cancel" "" CTX0
      = .ok { B0 with id := some 1, status := .cancelled } := by
  decide

/-- C3 amended: for both endpoints, approve succeeds exactly from
`pending`, reject exactly from `pending` with a non-empty reason,
complete exactly from `approved`, and cancel succeeds from every status
except `cancelled` and `completed` — so cancel is also allowed from
`rejected`, and `rejected` is not terminal; each successful action sets
the status announced by the action, and any other pair (given the
permission) is rejected. -/
theorem C3_lifecycle_transition_table :
    ∀ (u : Actor) (b : Booking) (notes : String) (ctx : CleanCtx),
      (exceptOk (booking_status_action u b "approve" notes ctx)
        = (user_can_approve u && decide (b.status = .pending)))
      ∧ (exceptOk (booking_status_action u b "reject" notes ctx)
        = (user_can_approve u && decide (b.status = .pending) && decide (notes ≠ "")))
      ∧ (exceptOk (booking_status_action u b "cancel" notes ctx)
        = ((decide (u.id = b.requester) || user_is_admin_role u)
            && !(decide (b.status = .cancelled) || decide (b.status = .completed))))
      ∧ (exceptOk (booking_status_action u b "complete" notes ctx)
        = (user_can_approve u && decide (b.status = .approved)))
      ∧ (∀ b', booking_status_action u b "approve" notes ctx = .ok b' → b'.status = .approved)
      ∧ (∀ b', booking_status_action u b "reject" notes ctx = .ok b' → b'.status = .rejected)
      ∧ (∀ b', booking_status_action u b "cancel" notes ctx = .ok b' → b'.status = .cancelled)
      ∧ (∀ b', booking_status_action u b "complete" notes ctx = .ok b' → b'.status = .completed)
      ∧ (exceptOk (bookingDetailView_post u b "approve" notes ctx)
        = (user_can_approve u && decide (b.status = .pending)))
      ∧ (exceptOk (bookingDetailView_post u b "reject" notes ctx)
        = (user_can_approve u && decide (b.status = .pending) && decide (notes ≠ "")))
      ∧ (exceptOk (bookingDetailView_post u b "cancel" notes ctx)
        = ((decide (u.id = b.requester) || u.is_superuser || user_is_admin_role u)
            && !(decide (b.status = .cancelled) || decide (b.status = .completed))))
      ∧ (exceptOk (bookingDetailView_post u b "complete" notes ctx)
        = (user_can_approve u && decide (b.status = .approved)))
      ∧ (∀ b', bookingDetailView_post u b "approve" notes ctx = .ok b' → b'.status = .approved)
      ∧ (∀ b', bookingDetailView_post u b "reject" notes ctx = .ok b' → b'.status = .rejected)
      ∧ (∀ b', bookingDetailView_post u b "cancel" notes ctx = .ok b' → b'.status = .cancelled)
      ∧ (∀ b', bookingDetailView_post u b "complete" notes ctx = .ok b' → b'.status = .completed) := by
  intro u b notes ctx
  refine ⟨?_, ?_, ?_, ?_, ?_, ?_, ?_, ?_, ?_, ?_, ?_, ?_, ?_, ?_, ?_, ?_⟩
  · cases hu : user_can_approve u <;> cases hs : b.status <;>
      simp_all [booking_status_action, Booking.save, exceptOk]
  · cases hu : user_can_approve u <;> cases hs : b.status <;> by_cases hn : notes = "" <;>
      simp_all [booking_status_action, Booking.save, exceptOk]
  · by_cases hr : u.id = b.requester <;> cases ha : user_is_admin_role u <;>
      cases hs : b.status <;>
      simp_all [booking_status_action, Booking.save, exceptOk]
  · cases hu : user_can_approve u <;> cases hs : b.status <;>
      simp_all [booking_status_action, Booking.save, exceptOk]
  · intro b' h
    cases hu : user_can_approve u <;> cases hs : b.status <;>
      simp_all [booking_status_action, Booking.save, exceptOk] <;> rw [← h]
  · intro b' h
    cases hu : user_can_approve u <;> cases hs : b.status <;> by_cases hn : notes = "" <;>
      simp_all [booking_status_action, Booking.save, exceptOk] <;> rw [← h]
  · intro b' h
    by_cases hr : u.id = b.requester <;> cases ha : user_is_admin_role u <;>
      cases hs : b.status <;>
      simp_all [booking_status_action, Booking.save, exceptOk] <;> rw [← h]
  · intro b' h
    cases hu : user_can_approve u <;> cases hs : b.status <;>
      simp_all [booking_status_action, Booking.save, exceptOk] <;> rw [← h]
  · cases hu : user_can_approve u <;> cases hs : b.status <;>
      simp_all [bookingDetailView_post, Booking.save, exceptOk]
  · cases hu : user_can_approve u <;> cases hs : b.status <;> by_cases hn : notes = "" <;>
      simp_all [bookingDetailView_post, Booking.save, exceptOk]
  · by_cases hr : u.id = b.requester <;> cases hsup : u.is_superuser <;>
      cases ha : user_is_admin_role u <;> cases hs : b.status <;>
      simp_all [bookingDetailView_post, Booking.save, exceptOk]
  · cases hu : user_can_approve u <;> cases hs : b.status <;>
      simp_all [bookingDetailView_post, Booking.save, exceptOk]
  · intro b' h
    cases hu : user_can_approve u <;> cases hs : b.status <;>
      simp_all [bookingDetailView_post, Booking.save, exceptOk] <;> rw [← h]
  · intro b' h
    cases hu : user_can_approve u <;> cases hs : b.status <;> by_cases hn : notes = "" <;>
      simp_all [bookingDetailView_post, Booking.save, exceptOk] <;> rw [← h]
  · intro b' h
    by_cases hr : u.id = b.requester <;> cases hsup : u.is_superuser <;>
      cases ha : user_is_admin_role u <;> cases hs : b.status <;>
      simp_all [bookingDetailView_post, Booking.save, exceptOk] <;> rw [← h]
  · intro b' h
    cases hu : user_can_approve u <;> cases hs : b.status <;>
      simp_all [bookingDetailView_post, Booking.save, exceptOk] <;> rw [← h]

/-- C3 amended witness: the approve row of the table applied to a
concrete pending booking, whose resulting status is `approved`. -/
theorem C3_lifecycle_transition_table_witness :
    ({ B0 with id := some 1, status := .approved, approved_by := some A0.id } : Booking).status
      = Status.approved :=
  (C3_lifecycle_transition_table A0 { B0 with id := some 1 } "" CTX0).2.2.2.2.1
    { B0 with id := some 1, status := .approved, approved_by := some A0.id } (by decide)

/-! ## C9 -/

/-- C9: both transition endpoints save with `update_fields`, so they are
independent of the validation context (no interval, conflict or policy
validation is re-run); a successful action leaves every field other than
`status`, `approved_by` and `admin_notes` of the target booking
unchanged; and at the store level no other booking row is modified. -/
theorem C9_transition_frame :
    ∀ (u : Actor) (b : Booking) (action notes : String) (ctx ctx' : CleanCtx),
      (booking_status_action u b action notes ctx
        = booking_status_action u b action notes ctx')
      ∧ (bookingDetailView_post u b action notes ctx
        = bookingDetailView_post u b action notes ctx')
      ∧ (∀ b', booking_status_action u b action notes ctx = .ok b' →
          b'.requester = b.requester ∧ b'.lab = b.lab ∧ b'.start = b.start ∧
          b'.stop = b.stop ∧ b'.purpose = b.purpose ∧
          b'.is_recurring = b.is_recurring ∧
          b'.recurrence_frequency = b.recurrence_frequency ∧
          b'.recurrence_end_date = b.recurrence_end_date ∧
          b'.parent_booking = b.parent_booking ∧
          b'.is_policy_exception = b.is_policy_exception ∧
          b'.exception_reason = b.exception_reason ∧
          b'.exception_approved_by = b.exception_approved_by)
      ∧ (∀ b', bookingDetailView_post u b action notes ctx = .ok b' →
          b'.requester = b.requester ∧ b'.lab = b.lab ∧ b'.start = b.start ∧
          b'.stop = b.stop ∧ b'.purpose = b.purpose ∧
          b'.is_recurring = b.is_recurring ∧
          b'.recurrence_frequency = b.recurrence_frequency ∧
          b'.recurrence_end_date = b.recurrence_end_date ∧
          b'.parent_booking = b.parent_booking ∧
          b'.is_policy_exception = b.is_policy_exception ∧
          b'.exception_reason = b.exception_reason ∧
          b'.exception_approved_by = b.exception_approved_by)
      ∧ (∀ (store : List Booking) (bid : Nat) (store' : List Booking) (c : Booking),
          booking_status_action_store u store bid action notes ctx = .ok store' →
          c ∈ store → c.id ≠ some bid → c ∈ store') := by
  intro u b action notes ctx ctx'
  refine ⟨?_, ?_, ?_, ?_, ?_⟩
  · simp only [booking_status_action, Booking.save]
  · simp only [bookingDetailView_post, Booking.save]
  · intro b' h
    simp only [booking_status_action, Booking.save] at h
    split_ifs at h <;> first | (rw [Except.ok.injEq] at h; subst h; simp) | simp_all
  · intro b' h
    simp only [bookingDetailView_post, Booking.save] at h
    split_ifs at h <;> first | (rw [Except.ok.injEq] at h; subst h; simp) | simp_all
  · intro store bid store' c h hc hne
    rcases hfind : store.find? (fun x => x.id = some bid) with _ | b0
    · simp only [booking_status_action_store, hfind] at h
      exact Except.noConfusion h
    · simp only [booking_status_action_store, hfind] at h
      rcases hact : booking_status_action u b0 action notes ctx with e | b''
      · simp only [hact] at h
        exact Except.noConfusion h
      · simp only [hact, Except.ok.injEq] at h
        subst h
        have hfc : (if c.id = some bid then b'' else c) = c := if_neg hne
        exact hfc ▸ List.mem_map_of_mem _ hc

/-- C9 witness: approving a concrete pending booking leaves its
requester unchanged, and an unrelated row survives the store-level
action untouched. -/
theorem C9_transition_frame_witness :
    ({ B0 with id := some 1, status := .approved, approved_by := some A0.id } : Booking).requester
      = ({ B0 with id := some 1 } : Booking).requester ∧
    ({ B0 with id := some 2 } : Booking) ∈
      [({ B0 with id := some 1, status := .approved, approved_by := some A0.id } : Booking),
       { B0 with id := some 2 }] :=
  ⟨((C9_transition_frame A0 { B0 with id := some 1 } "approve" "" CTX0 CTX0).2.2.1
      { B0 with id := some 1, status := .approved, approved_by := some A0.id } (by decide)).1,
    (C9_transition_frame A0 { B0 with id := some 1 } "approve" "" CTX0 CTX0).2.2.2.2
      [{ B0 with id := some 1 }, { B0 with id := some 2 }] 1
      [({ B0 with id := some 1, status := .approved, approved_by := some A0.id } : Booking),
       { B0 with id := some 2 }]
      { B0 with id := some 2 } (by decide) (by decide) (by decide)⟩

/-! ## C4 -/

/-- C4 counterexample: day 100 is far beyond the active policy's 30-day
horizon (from `now = 0`), yet the availability query returns the full
list of 24 thirty-minute windows for an empty lab — not an empty list as
the claim states. -/
theorem C4_beyond_horizon_not_empty :
    dateOf (0 + P0.max_advance_booking_days * minutesPerDay) < 100 ∧
    (availability_for_date [] 1 100 30 (some P0) 0).length = 24 := by
  decide

/-- C4 amended: the availability query never raises for a well-formed
date but also never consults the policy: its result is independent of
the active policy and of the current time, so a date beyond the
maximum advance-booking horizon (or before the minimum advance notice)
is served exactly like any other date rather than yielding an empty
list. -/
theorem C4_availability_ignores_policy :
    ∀ (existing : List Booking) (lab date_obj duration : Nat)
      (policy policy' : Option Policy) (now now' : Nat),
      (availability_for_date existing lab date_obj duration policy now
        = availability_for_date existing lab date_obj duration policy' now')
      ∧ (∀ p, policy = some p →
          dateOf (now + p.max_advance_booking_days * minutesPerDay) < date_obj →
          availability_for_date existing lab date_obj duration policy now
            = availability_for_date existing lab date_obj duration Option.none now) := by
  intro existing lab date_obj duration policy policy' now now'
  exact ⟨rfl, fun p _ _ => rfl⟩

/-- C4 amended witness: the independence applied to the concrete
beyond-horizon query of the counterexample. -/
theorem C4_availability_ignores_policy_witness :
    availability_for_date [] 1 100 30 (some P0) 0
      = availability_for_date [] 1 100 30 Option.none 0 :=
  (C4_availability_ignores_policy [] 1 100 30 (some P0) (some P0) 0 0).2 P0 rfl (by decide)

/-! ## C6 -/

/-- At whole minutes, the source's rounded two-decimal hour comparison
`round(minutes/60, 2) > max_hours` is exactly `minutes > 60 * max_hours`. -/
lemma duration_round_gt_iff (m H : ℕ) :
    (round ((m : ℚ) * 100 / 60) > (H : ℤ) * 100) ↔ 60 * H < m := by
  rw [gt_iff_lt, Int.lt_iff_add_one_le, round_eq, Int.le_floor]
  push_cast
  constructor
  · intro h
    have h2 : (60 * H : ℚ) < m := by linarith
    exact_mod_cast h2
  · intro h
    have h2 : (60 * H + 1 : ℚ) ≤ m := by exact_mod_cast h
    linarith

/-- C6: when an active policy exists and a booking's duration exceeds
`max_hours` (in minutes), `_validate_against_policy` reports a duration
violation unless the booking carries the policy-exception flag, in which
case it passes; with no active policy the check passes vacuously. -/
theorem C6_duration_policy_check :
    ∀ (b : Booking) (policies : List Policy),
      (∀ p, activePolicy policies = some p → 60 * p.max_hours < b.duration_minutes →
        (b.is_policy_exception = false →
          (b.validate_against_policy (activePolicy policies)).isSome = true)
        ∧ (b.is_policy_exception = true →
          b.validate_against_policy (activePolicy policies) = Option.none))
      ∧ (activePolicy policies = Option.none →
          b.validate_against_policy (activePolicy policies) = Option.none) := by
  intro b policies
  constructor
  · intro p hp hdur
    have hcenti : b.duration_hours_centi > (p.max_hours : ℤ) * 100 :=
      (duration_round_gt_iff b.duration_minutes p.max_hours).mpr hdur
    constructor
    · intro hflag
      rw [hp]
      simp [Booking.validate_against_policy, hcenti, hflag]
    · intro hflag
      rw [hp]
      simp [Booking.validate_against_policy, hflag]
  · intro hp
    rw [hp]
    simp [Booking.validate_against_policy]

/-- C6 witness (Scenario 2 of the specification): with the active policy
capping at 4 hours, a 5-hour booking 09:00-14:00 fails the duration
check without the exception flag and passes with it. -/
theorem C6_duration_policy_check_witness :
    ((Booking.validate_against_policy { B0 with start := 1980, stop := 2280 }
        (activePolicy [P0])).isSome = true) ∧
    (Booking.validate_against_policy
        { B0 with start := 1980, stop := 2280, is_policy_exception := true }
        (activePolicy [P0]) = Option.none) :=
  ⟨((C6_duration_policy_check { B0 with start := 1980, stop := 2280 } [P0]).1 P0
      (by decide) (by decide)).1 rfl,
    ((C6_duration_policy_check
        { B0 with start := 1980, stop := 2280, is_policy_exception := true } [P0]).1 P0
      (by decide) (by decide)).2 rfl⟩

/-! ## C7 -/

/-- C7 counterexample: a future child occurrence already in the terminal
status `completed` is switched to `cancelled` by cancel-series (the code
excludes only `cancelled`), although the claim says terminal children
are left completely unchanged. -/
theorem C7_cancel_series_touches_completed :
    cancel_recurring_series { B0 with id := some 1 } 0
      [{ B0 with id := some 2, parent_booking := some 1, status := .completed }]
      = [{ B0 with id := some 2, parent_booking := some 1, status := .cancelled }] := by
  decide

/-- C7 amended: cancel-series sets status to `cancelled` exactly on the
rows whose `parent_booking` is the parent, whose start is at or after
now, and whose status is not already `cancelled` — including future
`rejected` and `completed` children; every other row, and every other
field of the updated rows, is unchanged. -/
theorem C7_cancel_series_exact :
    ∀ (parent : Booking) (now : Nat) (store : List Booking) (i : Nat) (b : Booking),
      store.get? i = some b →
      ∃ b', (cancel_recurring_series parent now store).get? i = some b' ∧
        ((b.parent_booking = parent.id ∧ b.start ≥ now ∧ b.status ≠ .cancelled) →
          b' = { b with status := .cancelled }) ∧
        (¬(b.parent_booking = parent.id ∧ b.start ≥ now ∧ b.status ≠ .cancelled) →
          b' = b) ∧
        (b'.requester = b.requester ∧ b'.lab = b.lab ∧ b'.start = b.start ∧
          b'.stop = b.stop ∧ b'.parent_booking = b.parent_booking) := by
  intro parent now store i b hb
  have hget : (cancel_recurring_series parent now store).get? i =
      some (if b.parent_booking = parent.id ∧ b.start ≥ now ∧ b.status ≠ .cancelled then
        { b with status := .cancelled } else b) := by
    simp only [cancel_recurring_series, List.get?_map, hb, Option.map_some']
  refine ⟨_, hget, ?_, ?_, ?_⟩
  · intro hcond
    rw [if_pos hcond]
  · intro hcond
    rw [if_neg hcond]
  · by_cases hcond : b.parent_booking = parent.id ∧ b.start ≥ now ∧ b.status ≠ .cancelled <;>
      simp [hcond]

/-- C7 amended witness: the characterization applied to the concrete
future completed child, which is indeed rewritten to `cancelled`. -/
theorem C7_cancel_series_exact_witness :
    (cancel_recurring_series { B0 with id := some 1 } 0
      [{ B0 with id := some 2, parent_booking := some 1, status := .completed }]).get? 0
      = some { B0 with id := some 2, parent_booking := some 1, status := .cancelled } := by
  obtain ⟨b', hb', hpos, _, _⟩ :=
    C7_cancel_series_exact { B0 with id := some 1 } 0
      [{ B0 with id := some 2, parent_booking := some 1, status := .completed }] 0
      { B0 with id := some 2, parent_booking := some 1, status := .completed } (by decide)
  rw [hb', hpos (by decide)]

/-! ## C8 -/

/-- C8: resolving a policy exception mutates the exception record and
the linked booking as one atomic unit: a successful approval yields an
approved exception together with an approved booking whose exception
flag is cleared; a successful rejection yields a rejected exception
together with a rejected booking whose exception reason is cleared; the
only actions that can succeed are approve and reject, and a success
never pairs a resolved exception with a booking left `pending` (a
failure inside the transaction returns an error with both records
unchanged). -/
theorem C8_policy_exception_atomicity :
    ∀ (user : Actor) (exc : PolicyExceptionRec) (booking : Booking)
      (action review_notes : String) (ctx : CleanCtx) (now : Nat)
      (e' : PolicyExceptionRec) (b' : Booking),
      policy_exception_post user exc booking action review_notes ctx now = .ok (e', b') →
      (action = "approve" →
        e'.status = .approved ∧ b'.status = .approved ∧
        b'.is_policy_exception = false ∧ b'.approved_by = some user.id)
      ∧ (action = "reject" →
        e'.status = .rejected ∧ b'.status = .rejected ∧
        b'.is_policy_exception = false ∧ b'.exception_reason = Option.none)
      ∧ (action = "approve" ∨ action = "reject")
      ∧ ¬(e'.status = .approved ∧ b'.status = .pending)
      ∧ ¬(e'.status = .rejected ∧ b'.status = .pending) := by
  intro user exc booking action review_notes ctx now e' b' h
  simp only [policy_exception_post] at h
  split_ifs at h with hinv ha
  · split at h
    · exact Except.noConfusion h
    · rename_i bX hsave
      simp only [Booking.save] at hsave
      split at hsave
      · exact Except.noConfusion hsave
      · injection hsave with hb
        injection h with hpair
        injection hpair with h1 h2
        subst h1
        subst h2
        subst hb
        simp [ha]
  · rw [not_and_or, not_not, not_not] at hinv
    have hr : action = "reject" := hinv.resolve_left ha
    split at h
    · exact Except.noConfusion h
    · rename_i bX hsave
      simp only [Booking.save] at hsave
      split at hsave
      · exact Except.noConfusion hsave
      · injection hsave with hb
        injection h with hpair
        injection hpair with h1 h2
        subst h1
        subst h2
        subst hb
        simp [ha, hr]

/-- C8 witness: approving the concrete pending exception of booking 1
(valid future booking, empty context) yields the simultaneous
approved/approved pair with the flag cleared. -/
theorem C8_policy_exception_atomicity_witness :
    (PE0.status = .pending) ∧
    ({ PE0 with status := .approved, reviewed_by := some A0.id, reviewed_at := some 0, review_notes := some "ok" } : PolicyExceptionRec).status = .approved ∧
    ({ B0 with id := some 1, status := .approved, is_policy_exception := false, approved_by := some A0.id } : Booking).status = .approved ∧
    ({ B0 with id := some 1, status := .approved, is_policy_exception := false, approved_by := some A0.id } : Booking).is_policy_exception = false :=
  ⟨rfl,
    by
      have h := C8_policy_exception_atomicity A0 PE0 { B0 with id := some 1 } "approve" "ok"
        CTX0 0
        { PE0 with status := .approved, reviewed_by := some A0.id, reviewed_at := some 0, review_notes := some "ok" }
        { B0 with id := some 1, status := .approved, is_policy_exception := false, approved_by := some A0.id } (by decide)
      exact ⟨(h.1 rfl).1, (h.1 rfl).2.1, (h.1 rfl).2.2.1⟩⟩

/-! ## C5 and C10 -/

/-- If the service-level conflict query of recurrence expansion finds no
conflict for an interval, the model-level `has_conflict` of a booking on
that interval also finds none (it only adds a pk-exclusion). -/
lemma has_conflict_of_no_recurrence_conflicts (b : Booking) (existing : List Booking)
    (hb : recurrence_conflicts b.lab b.start b.stop existing = false) :
    b.has_conflict existing = false := by
  unfold recurrence_conflicts at hb
  unfold Booking.has_conflict
  rw [List.any_eq_false] at hb ⊢
  intro o ho
  have h := hb o ho
  cases hid : b.id <;>
    cases hlab : decide (o.lab = b.lab) <;>
    cases hs1 : decide (o.start < b.stop) <;>
    cases hs2 : decide (o.stop > b.start) <;>
    cases hc1 : decide (o.status ≠ Status.cancelled) <;>
    cases hc2 : decide (o.status ≠ Status.rejected) <;>
    (try simp only [hid, hlab, hs1, hs2, hc1, hc2, Bool.and_true, Bool.and_false,
      Bool.true_and, Bool.false_and, Bool.true_eq_false] at h ⊢) <;>
    first
      | exact h
      | exact absurd rfl h
      | exact absurd trivial h
      | simp

/-- With no active policy, a conflict-free recurrence candidate with a
lab, a positive duration and a non-past start passes `full_clean`. -/
lemma clean_mkRecurringChild_no_policy (parent : Booking) (frequency : Frequency)
    (nid cs ce now : Nat) (existing : List Booking)
    (hlab : parent.lab ≠ Option.none) (hdur : cs < ce) (hnow : now ≤ cs)
    (hnoconf : recurrence_conflicts parent.lab cs ce existing = false) :
    Booking.clean (mkRecurringChild parent frequency nid cs ce)
      ⟨existing, Option.none, now⟩ = Option.none := by
  have hhc : (mkRecurringChild parent frequency nid cs ce).has_conflict existing = false :=
    has_conflict_of_no_recurrence_conflicts _ _ (by simpa [mkRecurringChild] using hnoconf)
  have h1 : ¬(ce ≤ cs) := by omega
  have h2 : ¬(cs < now) := by omega
  simp [Booking.clean, mkRecurringChild, Booking.validate_time_restrictions,
    Booking.validate_against_policy, hlab, h1, h2] at hhc ⊢
  simp [hhc]

/-- The implementation loop coincides with the reference expansion when
no policy is active and the first candidate is not in the past. -/
lemma create_recurring_loop_eq_spec (parent : Booking) (frequency : Frequency)
    (delta end_date now : Nat)
    (hlab : parent.lab ≠ Option.none) (hss : parent.start < parent.stop) :
    ∀ (remaining k nid : Nat) (existing : List Booking),
      now ≤ parent.start + k * delta →
      create_recurring_loop parent frequency delta end_date Option.none now remaining existing
          (parent.start + k * delta) (parent.stop + k * delta) nid
        = expansion_spec_go parent frequency delta end_date remaining existing k nid := by
  intro remaining
  induction remaining with
  | zero => intro k nid existing _; rfl
  | succ r ih =>
    intro k nid existing hnow
    have hstep : parent.start + k * delta ≤ parent.start + (k + 1) * delta := by
      have hmul : k * delta ≤ (k + 1) * delta :=
        Nat.mul_le_mul_right delta (Nat.le_succ k)
      omega
    have e1 : parent.start + k * delta + delta = parent.start + (k + 1) * delta := by ring
    have e2 : parent.stop + k * delta + delta = parent.stop + (k + 1) * delta := by ring
    simp only [create_recurring_loop, expansion_spec_go]
    by_cases hdate : dateOf (parent.start + k * delta) ≤ end_date
    · rw [if_pos hdate, if_pos hdate]
      by_cases hconf : recurrence_conflicts parent.lab (parent.start + k * delta)
          (parent.stop + k * delta) existing = true
      · rw [if_pos hconf, if_pos hconf, e1, e2]
        exact ih (k + 1) nid existing (le_trans hnow hstep)
      · rw [if_neg hconf, if_neg hconf]
        rw [Bool.not_eq_true] at hconf
        have hclean := clean_mkRecurringChild_no_policy parent frequency nid
          (parent.start + k * delta) (parent.stop + k * delta) now existing hlab
          (by omega) hnow hconf
        simp only [hclean, e1, e2]
        exact congrArg _ (ih (k + 1) (nid + 1) _ (le_trans hnow hstep))
    · rw [if_neg hdate, if_neg hdate]

/-- C5 counterexample: a daily series until day 60 with no conflicts
produces only 52 children (the hard `max_instances = 52` cap), not the
60 in-range occurrences the claim promises; in particular the
conflict-free occurrence at `k = 53` (start minute 76920, day 53 ≤ 60)
is missing. -/
theorem C5_cap_truncates_series :
    (create_recurring_bookings { B0 with id := some 1, status := .approved } .daily 60
        Option.none 0 [] 2).length = 52 ∧
    (create_recurring_bookings { B0 with id := some 1, status := .approved } .daily 60
        Option.none 0 [] 2).all (fun c => c.start ≠ 600 + 53 * 1440) = true := by
  decide

/-- C5 amended: when no policy is active (so per-child `full_clean`
reduces to the conflict re-check) and the first occurrence is not in the
past, recurrence expansion returns exactly the reference expansion: for
`k = 1, 2, ...` the candidate `parent.start + k * step` of the parent's
duration is materialized (inheriting the parent's approval status) iff
it is conflict-free against the bookings present at that point, a
conflicting candidate is skipped while the iteration still advances one
step, and iteration stops after the end date or a hard cap of 52
occurrences. -/
theorem C5_expansion_matches_reference :
    ∀ (parent : Booking) (frequency : Frequency) (end_date now : Nat)
      (existing : List Booking) (next_id : Nat),
      parent.lab ≠ Option.none →
      parent.start < parent.stop →
      (∀ delta, recurrence_delta frequency = some delta → now ≤ parent.start + delta) →
      create_recurring_bookings parent frequency end_date Option.none now existing next_id
        = expansion_spec parent frequency end_date existing next_id := by
  intro parent frequency end_date now existing next_id hlab hss hnow
  unfold create_recurring_bookings expansion_spec
  cases hd : recurrence_delta frequency with
  | none => rfl
  | some delta =>
    have e1 : parent.start + delta = parent.start + 1 * delta := by ring
    have e2 : parent.stop + delta = parent.stop + 1 * delta := by ring
    dsimp only
    rw [e1, e2]
    exact create_recurring_loop_eq_spec parent frequency delta end_date now hlab hss
      52 1 next_id existing (by simpa using hnow delta hd)

/-- C5 amended witness (Scenario 3 of the specification): the weekly
parent on day 10 expanded until day 31 coincides with the reference
expansion (three children, on days 17, 24 and 31). -/
theorem C5_expansion_matches_reference_witness :
    create_recurring_bookings PR0 .weekly 31 Option.none 0 [] 2
      = expansion_spec PR0 .weekly 31 [] 2 ∧
    (expansion_spec PR0 .weekly 31 [] 2).length = 3 :=
  ⟨C5_expansion_matches_reference PR0 .weekly 31 0 [] 2 (by decide) (by decide)
      (fun delta _ => Nat.zero_le _),
    by decide⟩

/-- C10: every child produced by recurrence expansion preserves the
parent's shape: same requester, lab and purpose, the same duration,
`parent_booking` pointing at the parent, and status `approved` exactly
when the parent is approved, `pending` otherwise. -/
theorem C10_recurring_child_shape :
    ∀ (parent : Booking) (frequency : Frequency) (end_date : Nat) (policy : Option Policy)
      (now : Nat) (existing : List Booking) (next_id : Nat),
      ∀ c ∈ create_recurring_bookings parent frequency end_date policy now existing next_id,
        c.requester = parent.requester ∧ c.lab = parent.lab ∧ c.purpose = parent.purpose ∧
        c.stop - c.start = parent.stop - parent.start ∧ c.parent_booking = parent.id ∧
        c.status = (if parent.status = .approved then Status.approved else Status.pending) := by
  intro parent frequency end_date policy now existing next_id
  suffices hloop : ∀ (delta remaining : Nat) (existing' : List Booking) (cs ce nid : Nat),
      ce - cs = parent.stop - parent.start →
      ∀ c ∈ create_recurring_loop parent frequency delta end_date policy now remaining
          existing' cs ce nid,
        c.requester = parent.requester ∧ c.lab = parent.lab ∧ c.purpose = parent.purpose ∧
        c.stop - c.start = parent.stop - parent.start ∧ c.parent_booking = parent.id ∧
        c.status = (if parent.status = .approved then Status.approved else Status.pending) by
    intro c hc
    unfold create_recurring_bookings at hc
    cases hd : recurrence_delta frequency with
    | none => rw [hd] at hc; simp at hc
    | some delta =>
      rw [hd] at hc
      exact hloop delta 52 existing (parent.start + delta) (parent.stop + delta) next_id
        (by omega) c hc
  intro delta remaining
  induction remaining with
  | zero =>
    intro existing' cs ce nid hd c hc
    simp [create_recurring_loop] at hc
  | succ r ih =>
    intro existing' cs ce nid hd c hc
    simp only [create_recurring_loop] at hc
    by_cases h1 : dateOf cs ≤ end_date
    · rw [if_pos h1] at hc
      by_cases h2 : recurrence_conflicts parent.lab cs ce existing' = true
      · rw [if_pos h2] at hc
        exact ih existing' (cs + delta) (ce + delta) nid (by omega) c hc
      · rw [if_neg h2] at hc
        cases hcl : Booking.clean (mkRecurringChild parent frequency nid cs ce)
            ⟨existing', policy, now⟩ with
        | some e =>
          rw [hcl] at hc
          exact ih _ _ _ nid (by omega) c hc
        | none =>
          rw [hcl] at hc
          rcases List.mem_cons.mp hc with rfl | hc'
          · refine ⟨rfl, rfl, rfl, ?_, rfl, rfl⟩
            simpa [mkRecurringChild] using hd
          · exact ih _ _ _ (nid + 1) (by omega) c hc'
    · rw [if_neg h1] at hc
      simp at hc

/-- C10 witness: the first child of the concrete weekly expansion (day
17, 09:00-10:00) has the parent's shape. -/
theorem C10_recurring_child_shape_witness :
    (mkRecurringChild PR0 .weekly 2 25020 25080).requester = PR0.requester ∧
    (mkRecurringChild PR0 .weekly 2 25020 25080).lab = PR0.lab ∧
    (mkRecurringChild PR0 .weekly 2 25020 25080).purpose = PR0.purpose ∧
    (mkRecurringChild PR0 .weekly 2 25020 25080).stop
        - (mkRecurringChild PR0 .weekly 2 25020 25080).start = PR0.stop - PR0.start ∧
    (mkRecurringChild PR0 .weekly 2 25020 25080).parent_booking = PR0.id ∧
    (mkRecurringChild PR0 .weekly 2 25020 25080).status
      = (if PR0.status = .approved then Status.approved else Status.pending) :=
  C10_recurring_child_shape PR0 .weekly 31 Option.none 0 [] 2
    (mkRecurringChild PR0 .weekly 2 25020 25080) (by decide)

end PCLab
